import Mathlib

/-!
# CliqueBank `accounts.js`: wallet connection and the three form handlers

A shallow embedding of `src/accounts.js`.  The JavaScript built-ins the file
relies on (`parseInt`, the string-to-number coercion behind `isNaN(s)` and
`s <= 0`, `String.prototype.length`, `String.prototype.includes`, template
literals, truthiness) are modelled after ECMAScript; the wallet provider, the
contract binding and `ethers.utils.parseEther` are external and enter as
parameters (`Env`, `WalletEnv`).
-/

namespace CliqueBank

/-! ## JavaScript values and built-ins -/

/-- Property values of a thrown object, as far as the handlers inspect them:
`undefined`, `null`, a boolean or a string. -/
inductive JsVal where
  | undefined
  | null
  | bool (b : Bool)
  | str (s : String)
  deriving DecidableEq, Repr

/-- JavaScript truthiness (`if (v)`). -/
def JsVal.truthy : JsVal → Bool
  | .undefined => false
  | .null => false
  | .bool b => b
  | .str s => s != ""

/-- Conversion performed by a template literal `${v}`. -/
def JsVal.toStr : JsVal → String
  | .undefined => "undefined"
  | .null => "null"
  | .bool b => if b then "true" else "false"
  | .str s => s

/-- A value thrown (or a promise rejection value) coming from the outside.
`nullish` is `undefined` or `null`, on which every property read raises a
`TypeError`.  Every other value is described by the three properties the code
reads: `code` (`some n` when it is the integer number `n`), `reason` and
`message`. -/
inductive Thrown where
  | nullish
  | error (code : Option Int) (reason : JsVal) (message : JsVal)
  deriving DecidableEq, Repr

/-- What escapes a handler: a `TypeError` raised by the handler's own code, or a
caught value thrown again. -/
inductive Exn where
  | typeError
  | rethrown (t : Thrown)
  deriving DecidableEq, Repr

/-- The `length` of a JavaScript string: the number of UTF-16 code units
(field values are taken to be well-formed Unicode text). -/
def jsLength (s : String) : Nat :=
  (s.data.map (fun c => if c.toNat < 0x10000 then 1 else 2)).sum

/-- Substring search on character lists. -/
def includesL (needle : List Char) : List Char → Bool
  | [] => needle.isEmpty
  | c :: cs => needle.isPrefixOf (c :: cs) || includesL needle cs

/-- JavaScript `hay.includes(needle)`. -/
def includes (hay needle : String) : Bool :=
  includesL needle.data hay.data

/-- The characters `StrWhiteSpaceChar` of ECMAScript (white space and line
terminators), which `parseInt` and the string-to-number coercion strip. -/
def isStrWhiteSpaceChar (c : Char) : Bool :=
  let n := c.toNat
  n = 0x9 || n = 0xA || n = 0xB || n = 0xC || n = 0xD || n = 0x20 || n = 0xA0
    || n = 0x1680 || (0x2000 ≤ n && n ≤ 0x200A) || n = 0x2028 || n = 0x2029
    || n = 0x202F || n = 0x205F || n = 0x3000 || n = 0xFEFF

/-- Value of a character as a digit in bases up to 36. -/
def digitVal (c : Char) : Option Nat :=
  let n := c.toNat
  if 48 ≤ n ∧ n ≤ 57 then some (n - 48)
  else if 97 ≤ n ∧ n ≤ 122 then some (n - 87)
  else if 65 ≤ n ∧ n ≤ 90 then some (n - 55)
  else none

/-- The digit values of the longest leading run of radix-`r` digits. -/
def takeDigits (r : Nat) : List Char → List Nat
  | [] => []
  | c :: cs =>
    match digitVal c with
    | some d => if d < r then d :: takeDigits r cs else []
    | none => []

/-- The number written by a list of digit values in radix `r`. -/
def digitsValue (r : Nat) (ds : List Nat) : Nat :=
  ds.foldl (fun acc d => r * acc + d) 0

/-- Removes a leading sign and reports whether it was a minus. -/
def splitSign : List Char → Bool × List Char
  | '-' :: cs => (true, cs)
  | '+' :: cs => (false, cs)
  | cs => (false, cs)

/-- Removes a leading `0x`/`0X` and reports the radix to use (`parseInt` without
a radix argument). -/
def splitHex : List Char → Nat × List Char
  | '0' :: 'x' :: cs => (16, cs)
  | '0' :: 'X' :: cs => (16, cs)
  | cs => (10, cs)

/-- JavaScript `parseInt(s)` (no radix argument).  `none` is `NaN`; `some n` is
the integer parsed (`-0` is folded into `0`; the rounding to a double that
JavaScript applies to long digit runs is monotone and fixes every integer up to
`2^53`, so it does not change any comparison with `1` or `150`). -/
def parseInt (s : String) : Option Int :=
  let t := s.data.dropWhile isStrWhiteSpaceChar
  let (negative, u) := splitSign t
  let (r, v) := splitHex u
  match takeDigits r v with
  | [] => none
  | ds => some (if negative then -(digitsValue r ds : Int) else (digitsValue r ds : Int))

/-- Conversion of a number to a string performed by `${age}`: `NaN` or the
decimal digits of the integer (JavaScript changes to exponent form from
`10 ^ 21` on; the handler prints an age only after the range check, so only
`NaN` and the integers of `[1,150]` are ever printed). -/
def numToStr : Option Int → String
  | none => "NaN"
  | some n => toString n

/-- Evaluation of `age < 1` on a JavaScript number (`false` on `NaN`). -/
def ltOne : Option Int → Bool
  | none => false
  | some n => decide (n < 1)

/-- Evaluation of `age > 150` on a JavaScript number (`false` on `NaN`). -/
def gtOneFifty : Option Int → Bool
  | none => false
  | some n => decide (n > 150)

/-- The mathematical value of a string under the string-to-number coercion
(`Number(s)`), before rounding to a double: `NaN`, an infinity, or
`± mant × 10 ^ exp`. -/
inductive StrNum where
  | nan
  | inf (negative : Bool)
  | dec (negative : Bool) (mant : Nat) (exp : Int)
  deriving DecidableEq, Repr

/-- Strips `StrWhiteSpaceChar`s from both ends. -/
def trimWs (cs : List Char) : List Char :=
  ((cs.dropWhile isStrWhiteSpaceChar).reverse.dropWhile isStrWhiteSpaceChar).reverse

/-- The decimal number written by a list of decimal digit characters. -/
def decValue (ds : List Char) : Nat :=
  ds.foldl (fun acc c => 10 * acc + (c.toNat - 48)) 0

/-- Parses an optional `ExponentPart` that must extend to the end of input:
`none` when the rest is malformed. -/
def parseExponent : List Char → Option Int
  | [] => some 0
  | c :: cs =>
    if c = 'e' ∨ c = 'E' then
      let (negative, ds) := splitSign cs
      if ds.isEmpty || !ds.all Char.isDigit then none
      else some (if negative then -(decValue ds : Int) else (decValue ds : Int))
    else none

/-- Parses `StrUnsignedDecimalLiteral` other than `Infinity`: digits, an
optional fraction, an optional exponent; at least one digit in the integer or
fraction part.  Returns mantissa and decimal exponent. -/
def parseUnsignedDecimal (cs : List Char) : Option (Nat × Int) :=
  let (ip, rest) := cs.span Char.isDigit
  match rest with
  | '.' :: rest1 =>
    let (fp, rest2) := rest1.span Char.isDigit
    if ip.isEmpty && fp.isEmpty then none
    else (parseExponent rest2).map (fun e => (decValue (ip ++ fp), e - (fp.length : Int)))
  | _ =>
    if ip.isEmpty then none
    else (parseExponent rest).map (fun e => (decValue ip, e))

/-- Parses the digits of a `NonDecimalIntegerLiteral` of radix `r`: at least one
digit, all of them radix-`r` digits. -/
def parseRadix (r : Nat) (cs : List Char) : StrNum :=
  if cs.isEmpty || (takeDigits r cs).length != cs.length then .nan
  else .dec false (digitsValue r (takeDigits r cs)) 0

/-- Parses `StrDecimalLiteral`: an optional sign, then `Infinity` or an unsigned
decimal literal. -/
def parseSignedDecimal (cs : List Char) : StrNum :=
  let (negative, u) := splitSign cs
  if u = "Infinity".data then .inf negative
  else
    match parseUnsignedDecimal u with
    | some (m, e) => .dec negative m e
    | none => .nan

/-- The string-to-number coercion `Number(s)` (ECMAScript `StringToNumber`),
giving the exact value written. -/
def strToNumber (s : String) : StrNum :=
  match trimWs s.data with
  | [] => .dec false 0 0
  | '0' :: 'x' :: cs => parseRadix 16 cs
  | '0' :: 'X' :: cs => parseRadix 16 cs
  | '0' :: 'o' :: cs => parseRadix 8 cs
  | '0' :: 'O' :: cs => parseRadix 8 cs
  | '0' :: 'b' :: cs => parseRadix 2 cs
  | '0' :: 'B' :: cs => parseRadix 2 cs
  | cs => parseSignedDecimal cs

/-- Whether `mant × 10 ^ exp` rounds to the double `0`: it is zero, or at most
half the smallest positive double, `2 ^ (-1075)` (`mant <<< 1075` is
`mant * 2 ^ 1075`). -/
def roundsToZero (mant : Nat) (exp : Int) : Bool :=
  mant = 0 || (exp < 0 && mant <<< 1075 ≤ 10 ^ (-exp).toNat)

/-- JavaScript `isNaN(s)` on a string. -/
def isNaN (s : String) : Bool :=
  match strToNumber s with
  | .nan => true
  | _ => false

/-- JavaScript `s <= 0` on a string (`false` when `s` converts to `NaN`). -/
def leZero (s : String) : Bool :=
  match strToNumber s with
  | .nan => false
  | .inf negative => negative
  | .dec negative mant exp => negative || roundsToZero mant exp

/-! ## The external world -/

/-- Requests that reach the wallet provider or the contract binding. -/
inductive Call where
  | switchEthereumChain (chainId : String)
  | requestAccounts
  | getAddress
  | setUserInfo (age : Option Int) (name : String) (married : Bool) (value : Int)
  | makeDeposit (value : Int)
  | withdrawMyBalance (amount : Int)
  | wait
  deriving DecidableEq, Repr

/-- The calls that invoke an entry point of the contract. -/
def Call.isContractCall : Call → Bool
  | .setUserInfo _ _ _ _ => true
  | .makeDeposit _ => true
  | .withdrawMyBalance _ => true
  | _ => false

/-- The external collaborators of one form submission: the unit conversion
`ethers.utils.parseEther`, the outcome of sending a contract call (broadcast)
and the outcome of `tx.wait()` (confirmation).  Each may throw. -/
structure Env where
  parseEther : String → Except Thrown Int
  broadcast : Call → Except Thrown Unit
  confirm : Call → Except Thrown Unit

/-- The provider raises `err` for the call `c`: at broadcast, or at confirmation
after a successful broadcast. -/
def Env.raises (env : Env) (c : Call) (err : Thrown) : Prop :=
  env.broadcast c = .error err ∨ (env.broadcast c = .ok () ∧ env.confirm c = .error err)

/-- The injected wallet provider `window.ethereum` as `connectWallet` uses it:
the result of the network switch, of the account authorization and of
`signer.getAddress()`. -/
structure WalletEnv where
  switchChain : Except Thrown Unit
  requestAccounts : Except Thrown Unit
  getAddress : Except Thrown String

/-- The global `contract` binding once set. -/
structure Contract where
  address : String
  deriving DecidableEq, Repr

/-- How a run ends: a blocking `alert` followed by `return`, a text written to
the status element, or an exception leaving the function. -/
inductive Outcome where
  | alert (msg : String)
  | status (text : String)
  | uncaught (e : Exn)
  deriving DecidableEq, Repr

/-- The observable result of one handler run: the provider and contract calls
made, in order, and how the run ended. -/
structure Run where
  calls : List Call
  outcome : Outcome
  deriving DecidableEq, Repr

/-- The result of one run of `connectWallet`: the `contract` global afterwards,
the calls made and how the run ended. -/
structure ConnectRun where
  contract : Option Contract
  calls : List Call
  outcome : Outcome
  deriving DecidableEq, Repr

/-! ## `accounts.js` -/

def contractAddress : String := "<YOUR_ACTUAL_CONTRACT_ADDRESS>"

def monadTestnetChainId : String := "0x<MONAD_TESTNET_CHAINID>"

/-- Text of a boolean in a template literal. -/
def boolToStr (b : Bool) : String := if b then "true" else "false"

/-- The function `connectWallet`; `ethereum` is `window.ethereum` (`none` when no
wallet is installed). -/
def connectWallet (contract : Option Contract) (ethereum : Option WalletEnv) : ConnectRun :=
  match ethereum with
  | none => ⟨contract, [], .alert "Please install MetaMask to use this dApp"⟩
  | some w =>
    match w.switchChain with
    | .error switchError =>
      match switchError with
      | .nullish => ⟨contract, [.switchEthereumChain monadTestnetChainId], .uncaught .typeError⟩
      | .error code _ _ =>
        if code = some 4902 then
          ⟨contract, [.switchEthereumChain monadTestnetChainId],
            .alert "Please add Monad Testnet to MetaMask"⟩
        else
          ⟨contract, [.switchEthereumChain monadTestnetChainId],
            .uncaught (.rethrown switchError)⟩
    | .ok () =>
      match w.requestAccounts with
      | .error err =>
        ⟨contract, [.switchEthereumChain monadTestnetChainId, .requestAccounts],
          .uncaught (.rethrown err)⟩
      | .ok () =>
        match w.getAddress with
        | .error err =>
          ⟨some ⟨contractAddress⟩,
            [.switchEthereumChain monadTestnetChainId, .requestAccounts, .getAddress],
            .uncaught (.rethrown err)⟩
        | .ok address =>
          ⟨some ⟨contractAddress⟩,
            [.switchEthereumChain monadTestnetChainId, .requestAccounts, .getAddress],
            .status ("✅ Connected: " ++ address)⟩

/-- The check `age < 1 || age > 150`. -/
def ageRejected (age : Option Int) : Bool := ltOne age || gtOneFifty age

/-- The check `name.length > 32`. -/
def nameRejected (name : String) : Bool := decide (jsLength name > 32)

/-- The check `isNaN(amount) || amount <= 0` on the raw field value. -/
def amountRejected (amount : String) : Bool := isNaN amount || leZero amount

/-- The `catch` block of the registration handler. -/
def registerCatch : Thrown → Outcome
  | .nullish => .uncaught .typeError
  | .error _ reason message =>
    if reason.truthy then
      .status ("❌ " ++ ("Registration failed" ++ (": " ++ reason.toStr)))
    else
      match message with
      | .str m =>
        if includes m "insufficient funds" then
          .status ("❌ " ++ ("Registration failed" ++ ": Insufficient ETH for 0.5 ETH fee"))
        else .status ("❌ " ++ "Registration failed")
      | _ => .uncaught .typeError

/-- The `catch` block of the deposit handler. -/
def depositCatch : Thrown → Outcome
  | .nullish => .uncaught .typeError
  | .error _ reason message =>
    if reason.truthy then
      .status ("❌ " ++ ("Deposit failed" ++ (": " ++ reason.toStr)))
    else
      match message with
      | .str m =>
        if includes m "User not registered" then
          .status ("❌ " ++ ("Deposit failed" ++ ": Register first"))
        else .status ("❌ " ++ "Deposit failed")
      | _ => .uncaught .typeError

/-- The `catch` block of the withdrawal handler. -/
def withdrawCatch : Thrown → Outcome
  | .nullish => .uncaught .typeError
  | .error _ reason _ =>
    if reason.truthy then
      .status ("❌ " ++ ("Withdrawal failed" ++ (": " ++ reason.toStr)))
    else .status ("❌ " ++ "Withdrawal failed")

/-- The submit handler of `registerForm`, on the raw values of the fields
`name`, `age` and `married`. -/
def registerHandler (contract : Option Contract) (env : Env)
    (nameField ageField marriedField : String) : Run :=
  let name := nameField
  let age := parseInt ageField
  let married := decide (marriedField = "true")
  match contract with
  | none => ⟨[], .alert "Connect wallet first"⟩
  | some _ =>
    if ageRejected age then ⟨[], .alert "Age must be between 1 and 150"⟩
    else if nameRejected name then ⟨[], .alert "Name must be 32 characters or less"⟩
    else
      match env.parseEther "0.5" with
      | .error err => ⟨[], registerCatch err⟩
      | .ok value =>
        match env.broadcast (.setUserInfo age name married value) with
        | .error err => ⟨[.setUserInfo age name married value], registerCatch err⟩
        | .ok () =>
          match env.confirm (.setUserInfo age name married value) with
          | .error err => ⟨[.setUserInfo age name married value, .wait], registerCatch err⟩
          | .ok () =>
            ⟨[.setUserInfo age name married value, .wait],
              .status ("✅ Registered " ++ name ++ " (age " ++ numToStr age ++ ", married: "
                ++ boolToStr married ++ ")")⟩

/-- The submit handler of `depositForm`, on the raw value of the field
`amount`. -/
def depositHandler (contract : Option Contract) (env : Env) (amount : String) : Run :=
  match contract with
  | none => ⟨[], .alert "Connect wallet first"⟩
  | some _ =>
    if amountRejected amount then ⟨[], .alert "Enter a valid deposit amount"⟩
    else
      match env.parseEther amount with
      | .error err => ⟨[], depositCatch err⟩
      | .ok value =>
        match env.broadcast (.makeDeposit value) with
        | .error err => ⟨[.makeDeposit value], depositCatch err⟩
        | .ok () =>
          match env.confirm (.makeDeposit value) with
          | .error err => ⟨[.makeDeposit value, .wait], depositCatch err⟩
          | .ok () =>
            ⟨[.makeDeposit value, .wait], .status ("💰 Deposited " ++ amount ++ " ETH")⟩

/-- The submit handler of `withdrawForm`, on the raw value of the field
`withdrawAmount`. -/
def withdrawHandler (contract : Option Contract) (env : Env) (amount : String) : Run :=
  match contract with
  | none => ⟨[], .alert "Connect wallet first"⟩
  | some _ =>
    if amountRejected amount then ⟨[], .alert "Enter a valid withdrawal amount"⟩
    else
      match env.parseEther amount with
      | .error err => ⟨[], withdrawCatch err⟩
      | .ok value =>
        match env.broadcast (.withdrawMyBalance value) with
        | .error err => ⟨[.withdrawMyBalance value], withdrawCatch err⟩
        | .ok () =>
          match env.confirm (.withdrawMyBalance value) with
          | .error err => ⟨[.withdrawMyBalance value, .wait], withdrawCatch err⟩
          | .ok () =>
            ⟨[.withdrawMyBalance value, .wait],
              .status ("💸 Withdrawn " ++ amount ++ " ETH (after 2% fee)")⟩

/-! ## Concrete environments -/

/-- The error object a failed unit conversion throws. -/
def invalidDecimal : Thrown :=
  .error none (.str "invalid decimal value") (.str "invalid decimal value")

/-- Modelled from the spec: `ethers.utils.parseEther`, the currency-unit
conversion utility of the external contract library (decimal string to
smallest-unit integer, `10 ^ 18` per unit, at most 18 fraction digits).  It is
used only to build the concrete environments below. -/
def parseEtherDecimal (s : String) : Except Thrown Int :=
  let (negative, u) := match s.data with
    | '-' :: cs => (true, cs)
    | cs => (false, cs)
  let (ip, rest) := u.span Char.isDigit
  let fraction : Option (List Char) := match rest with
    | [] => some []
    | '.' :: fp => if fp.all Char.isDigit then some fp else none
    | _ => none
  match fraction with
  | none => .error invalidDecimal
  | some fp =>
    if (ip.isEmpty && fp.isEmpty) || decide (fp.length > 18) then .error invalidDecimal
    else
      let wei : Int := (decValue ip * 10 ^ 18 + decValue fp * 10 ^ (18 - fp.length) : Nat)
      .ok (if negative then -wei else wei)

/-- An environment in which conversion, broadcast and confirmation succeed. -/
def okEnv : Env :=
  ⟨parseEtherDecimal, fun _ => .ok (), fun _ => .ok ()⟩

/-- An environment whose broadcast fails with `err`. -/
def broadcastFailEnv (err : Thrown) : Env :=
  ⟨parseEtherDecimal, fun _ => .error err, fun _ => .ok ()⟩

/-- An environment whose confirmation fails with `err`. -/
def confirmFailEnv (err : Thrown) : Env :=
  ⟨parseEtherDecimal, fun _ => .ok (), fun _ => .error err⟩

/-- A wallet whose network switch fails with `err`. -/
def switchFailWallet (err : Thrown) : WalletEnv :=
  ⟨.error err, .ok (), .ok "0xabc"⟩

/-- A binding as `connectWallet` creates it. -/
def someContract : Contract := ⟨contractAddress⟩

/-- An error that carries a reason and whose message mentions the unregistered
caller. -/
def revertedUnregistered : Thrown :=
  .error none (.str "execution reverted") (.str "execution reverted: User not registered")

/-- An error with no reason whose message mentions the unregistered caller. -/
def unregisteredNoReason : Thrown :=
  .error none .undefined (.str "execution reverted: User not registered")

/-- An error object that has neither a reason nor a message. -/
def bareError : Thrown :=
  .error (some (-32603)) .undefined .undefined

/-! ## Auxiliary lemmas -/

theorem includesL_of_isPrefixOf (needle l : List Char) (h : needle.isPrefixOf l = true) :
    includesL needle l = true := by
  cases l with
  | nil =>
    cases needle with
    | nil => rfl
    | cons a t => simp [List.isPrefixOf] at h
  | cons c cs => simp [includesL, h]

theorem includesL_append (needle pre post : List Char) :
    includesL needle (pre ++ (needle ++ post)) = true := by
  induction pre with
  | nil =>
    apply includesL_of_isPrefixOf
    rw [List.nil_append, List.isPrefixOf_iff_prefix]
    exact List.prefix_append _ _
  | cons c cs ih => simp [includesL, ih]

theorem includes_of_eq (s a n b : String) (h : s = a ++ n ++ b) : includes s n = true := by
  subst h
  simp [includes, String.data_append, includesL_append]

theorem registerHandler_raises (c : Contract) (env : Env)
    (nameField ageField marriedField : String) (value : Int) (err : Thrown)
    (hAge : ageRejected (parseInt ageField) = false) (hName : nameRejected nameField = false)
    (hFee : env.parseEther "0.5" = .ok value)
    (hErr : env.raises
      (.setUserInfo (parseInt ageField) nameField (decide (marriedField = "true")) value) err) :
    (registerHandler (some c) env nameField ageField marriedField).outcome
      = registerCatch err := by
  rcases hErr with hB | ⟨hB, hC⟩
  · simp [registerHandler, hAge, hName, hFee, hB]
  · simp [registerHandler, hAge, hName, hFee, hB, hC]

theorem depositHandler_raises (c : Contract) (env : Env) (amount : String) (value : Int)
    (err : Thrown) (hAmount : amountRejected amount = false)
    (hValue : env.parseEther amount = .ok value)
    (hErr : env.raises (.makeDeposit value) err) :
    (depositHandler (some c) env amount).outcome = depositCatch err := by
  rcases hErr with hB | ⟨hB, hC⟩
  · simp [depositHandler, hAmount, hValue, hB]
  · simp [depositHandler, hAmount, hValue, hB, hC]

theorem withdrawHandler_raises (c : Contract) (env : Env) (amount : String) (value : Int)
    (err : Thrown) (hAmount : amountRejected amount = false)
    (hValue : env.parseEther amount = .ok value)
    (hErr : env.raises (.withdrawMyBalance value) err) :
    (withdrawHandler (some c) env amount).outcome = withdrawCatch err := by
  rcases hErr with hB | ⟨hB, hC⟩
  · simp [withdrawHandler, hAmount, hValue, hB]
  · simp [withdrawHandler, hAmount, hValue, hB, hC]

theorem truthy_str (r : String) (h : r ≠ "") : (JsVal.str r).truthy = true := by
  simp [JsVal.truthy, h]

theorem depositCatch_ne_alert (err : Thrown) (msg : String) :
    depositCatch err ≠ .alert msg := by
  unfold depositCatch
  repeat' split
  all_goals simp

theorem withdrawCatch_ne_alert (err : Thrown) (msg : String) :
    withdrawCatch err ≠ .alert msg := by
  unfold withdrawCatch
  repeat' split
  all_goals simp

theorem depositHandler_outcome_ne_alert (c : Contract) (env : Env) (amount msg : String)
    (h : amountRejected amount = false) :
    (depositHandler (some c) env amount).outcome ≠ .alert msg := by
  simp only [depositHandler, h, Bool.false_eq_true, if_false]
  repeat' split
  all_goals first
    | exact depositCatch_ne_alert _ _
    | simp

theorem withdrawHandler_outcome_ne_alert (c : Contract) (env : Env) (amount msg : String)
    (h : amountRejected amount = false) :
    (withdrawHandler (some c) env amount).outcome ≠ .alert msg := by
  simp only [withdrawHandler, h, Bool.false_eq_true, if_false]
  repeat' split
  all_goals first
    | exact withdrawCatch_ne_alert _ _
    | simp

theorem amountRejected_iff (amount : String) :
    amountRejected amount = true ↔ (isNaN amount = true ∨ leZero amount = true) := by
  simp [amountRejected]

theorem registration_failed_reason (r : String) :
    "❌ " ++ ("Registration failed" ++ (": " ++ r)) = "❌ Registration failed: " ++ r := by
  rw [← String.append_assoc, ← String.append_assoc]; rfl

theorem deposit_failed_reason (r : String) :
    "❌ " ++ ("Deposit failed" ++ (": " ++ r)) = "❌ Deposit failed: " ++ r := by
  rw [← String.append_assoc, ← String.append_assoc]; rfl

theorem withdrawal_failed_reason (r : String) :
    "❌ " ++ ("Withdrawal failed" ++ (": " ++ r)) = "❌ Withdrawal failed: " ++ r := by
  rw [← String.append_assoc, ← String.append_assoc]; rfl

/-! ## The claims -/

/-- C1: with no wallet session (the `contract` binding unset), each of the three
form handlers, on every raw form input and whatever the outside world would
answer, ends with the alert "Connect wallet first" and makes no call to the
wallet provider or the contract. -/
theorem no_session_not_connected (env : Env)
    (nameField ageField marriedField amount : String) :
    registerHandler none env nameField ageField marriedField
        = ⟨[], .alert "Connect wallet first"⟩
      ∧ depositHandler none env amount = ⟨[], .alert "Connect wallet first"⟩
      ∧ withdrawHandler none env amount = ⟨[], .alert "Connect wallet first"⟩ :=
  ⟨rfl, rfl, rfl⟩

/-- C2, as stated, fails: with no session, the age `0` (outside `[1,150]`) is not
answered by a validation failure but by "Connect wallet first", because the
handler tests the session before it validates. -/
theorem register_validation_counterexample :
    parseInt "0" = some 0 ∧ ageRejected (some 0) = true
      ∧ (registerHandler none okEnv "Bob" "0" "true").outcome = .alert "Connect wallet first"
      ∧ (registerHandler none okEnv "Bob" "0" "true").outcome
          ≠ .alert "Age must be between 1 and 150"
      ∧ (registerHandler none okEnv "Bob" "0" "true").outcome
          ≠ .alert "Name must be 32 characters or less" := by
  decide

/-- C2, amended: for every registration input whose age is an integer outside
`[1,150]` or whose name is longer than 32 (UTF-16 units, `name.length`), for
every value of the other fields: the handler makes no provider or contract call
in every session state; with a session present it ends with a validation alert
(the age message when the age is out of range, the name message otherwise);
with no session it ends with "Connect wallet first". -/
theorem register_validation_rejects (contract : Option Contract) (env : Env)
    (nameField ageField marriedField : String)
    (h : (∃ n : Int, parseInt ageField = some n ∧ (n < 1 ∨ n > 150))
      ∨ jsLength nameField > 32) :
    (registerHandler contract env nameField ageField marriedField).calls = []
      ∧ (contract = none →
          (registerHandler contract env nameField ageField marriedField).outcome
            = .alert "Connect wallet first")
      ∧ (contract ≠ none → (∃ n : Int, parseInt ageField = some n ∧ (n < 1 ∨ n > 150)) →
          (registerHandler contract env nameField ageField marriedField).outcome
            = .alert "Age must be between 1 and 150")
      ∧ (contract ≠ none → ¬ (∃ n : Int, parseInt ageField = some n ∧ (n < 1 ∨ n > 150)) →
          (registerHandler contract env nameField ageField marriedField).outcome
            = .alert "Name must be 32 characters or less") := by
  have key : ∀ a : Option Int,
      ageRejected a = true ↔ ∃ n : Int, a = some n ∧ (n < 1 ∨ n > 150) := by
    intro a
    cases a with
    | none => simp [ageRejected, ltOne, gtOneFifty]
    | some n => simp [ageRejected, ltOne, gtOneFifty]
  cases contract with
  | none => simp [registerHandler]
  | some c =>
    by_cases hA : ageRejected (parseInt ageField) = true
    · have hA2 := (key _).1 hA
      simp [registerHandler, hA, hA2]
    · have hA2 : ¬ ∃ n : Int, parseInt ageField = some n ∧ (n < 1 ∨ n > 150) :=
        fun hh => hA ((key _).2 hh)
      have hN : nameRejected nameField = true := by
        rcases h with h | h
        · exact absurd h hA2
        · simp [nameRejected, h]
      simp only [Bool.not_eq_true] at hA
      refine ⟨?_, ?_, ?_, ?_⟩
      · simp [registerHandler, hA, hN]
      · intro hc; cases hc
      · intro _ hh; exact absurd hh hA2
      · intro _ _; simp [registerHandler, hA, hN]

/-- Witness for C2 (amended): the age field "0" with a session present. -/
theorem register_validation_rejects_witness :
    (registerHandler (some someContract) okEnv "Bob" "0" "true").calls = []
      ∧ (registerHandler (some someContract) okEnv "Bob" "0" "true").outcome
          = .alert "Age must be between 1 and 150" :=
  have h : (∃ n : Int, parseInt "0" = some n ∧ (n < 1 ∨ n > 150)) ∨ jsLength "Bob" > 32 :=
    Or.inl ⟨0, by decide, Or.inl (by decide)⟩
  have hAge : ∃ n : Int, parseInt "0" = some n ∧ (n < 1 ∨ n > 150) :=
    ⟨0, by decide, Or.inl (by decide)⟩
  have t := register_validation_rejects (some someContract) okEnv "Bob" "0" "true" h
  ⟨t.1, t.2.2.1 (by simp) hAge⟩

/-- C3, as stated, fails: with no session the non-numeric amount "abc" and the
negative amount "-1" are not answered by a validation failure but by "Connect
wallet first", because both handlers test the session before the amount. -/
theorem amount_validation_counterexample :
    isNaN "abc" = true ∧ leZero "-1" = true
      ∧ (depositHandler none okEnv "abc").outcome = .alert "Connect wallet first"
      ∧ (depositHandler none okEnv "abc").outcome ≠ .alert "Enter a valid deposit amount"
      ∧ (withdrawHandler none okEnv "-1").outcome = .alert "Connect wallet first"
      ∧ (withdrawHandler none okEnv "-1").outcome
          ≠ .alert "Enter a valid withdrawal amount" := by
  decide

/-- C3, amended: for every raw amount string that converts (`Number(s)`) to `NaN`
or to a number `<= 0`, the deposit and the withdrawal handler make no call at
all in every session state; with a session present they end with their
validation alert, with no session with "Connect wallet first"; with a session
present the validation alert is raised for exactly these strings.  The strings
"", "abc", "0" and "-1" are among them. -/
theorem amount_validation_rejects :
    (∀ (contract : Option Contract) (env : Env) (amount : String),
        (isNaN amount = true ∨ leZero amount = true) →
        (depositHandler contract env amount).calls = []
          ∧ (withdrawHandler contract env amount).calls = []
          ∧ (contract ≠ none →
              (depositHandler contract env amount).outcome
                  = .alert "Enter a valid deposit amount"
                ∧ (withdrawHandler contract env amount).outcome
                  = .alert "Enter a valid withdrawal amount")
          ∧ (contract = none →
              (depositHandler contract env amount).outcome = .alert "Connect wallet first"
                ∧ (withdrawHandler contract env amount).outcome
                  = .alert "Connect wallet first"))
      ∧ (∀ (c : Contract) (env : Env) (amount : String),
          ((depositHandler (some c) env amount).outcome = .alert "Enter a valid deposit amount"
              ↔ (isNaN amount = true ∨ leZero amount = true))
            ∧ ((withdrawHandler (some c) env amount).outcome
                  = .alert "Enter a valid withdrawal amount"
              ↔ (isNaN amount = true ∨ leZero amount = true)))
      ∧ leZero "" = true ∧ isNaN "abc" = true ∧ leZero "0" = true ∧ leZero "-1" = true := by
  refine ⟨?_, ?_, by decide, by decide, by decide, by decide⟩
  · intro contract env amount h
    have hR := (amountRejected_iff amount).2 h
    cases contract with
    | none => simp [depositHandler, withdrawHandler]
    | some c => simp [depositHandler, withdrawHandler, hR]
  · intro c env amount
    rw [← amountRejected_iff]
    by_cases hR : amountRejected amount = true
    · simp [depositHandler, withdrawHandler, hR]
    · simp only [Bool.not_eq_true] at hR
      have h1 := depositHandler_outcome_ne_alert c env amount "Enter a valid deposit amount" hR
      have h2 :=
        withdrawHandler_outcome_ne_alert c env amount "Enter a valid withdrawal amount" hR
      simp [hR, h1, h2]

/-- Witness for C3 (amended): the four strings the claim names, with a session
present. -/
theorem amount_validation_rejects_witness :
    ((depositHandler (some someContract) okEnv "").calls = []
        ∧ (depositHandler (some someContract) okEnv "").outcome
            = .alert "Enter a valid deposit amount")
      ∧ ((withdrawHandler (some someContract) okEnv "abc").calls = []
        ∧ (withdrawHandler (some someContract) okEnv "abc").outcome
            = .alert "Enter a valid withdrawal amount")
      ∧ (depositHandler (some someContract) okEnv "0").outcome
            = .alert "Enter a valid deposit amount"
      ∧ (withdrawHandler (some someContract) okEnv "-1").outcome
            = .alert "Enter a valid withdrawal amount" :=
  have t1 := amount_validation_rejects.1 (some someContract) okEnv ""
    (Or.inr (by decide))
  have t2 := amount_validation_rejects.1 (some someContract) okEnv "abc"
    (Or.inl (by decide))
  have t3 := amount_validation_rejects.1 (some someContract) okEnv "0"
    (Or.inr (by decide))
  have t4 := amount_validation_rejects.1 (some someContract) okEnv "-1"
    (Or.inr (by decide))
  ⟨⟨t1.1, (t1.2.2.1 (by simp)).1⟩, ⟨t2.2.1, (t2.2.2.1 (by simp)).2⟩,
    (t3.2.2.1 (by simp)).1, (t4.2.2.1 (by simp)).2⟩

/-- C4 (the code at the failing input): an empty or non-numeric age field makes
`parseInt` return `NaN`, both comparisons `age < 1` and `age > 150` are false on
`NaN`, and the handler invokes the registration entry point with the age
`NaN`, which is no integer in `[1,150]`. -/
theorem register_nan_age_reaches_contract :
    parseInt "" = none ∧ parseInt "abc" = none
      ∧ (registerHandler (some someContract) okEnv "Alice" "" "true").calls
          = [.setUserInfo none "Alice" true 500000000000000000, .wait]
      ∧ (registerHandler (some someContract) okEnv "Alice" "abc" "true").calls
          = [.setUserInfo none "Alice" true 500000000000000000, .wait] := by
  decide

/-- C5: a registration with a name of at most 32 units, an age field that parses
to an integer in `[1,150]`, a session present, the fee conversion
`parseEther("0.5")` giving `5 * 10 ^ 17` and a provider that succeeds at
broadcast and confirmation makes exactly one contract call, `setUserInfo` with
`(age, name, married)` and attached value `5 * 10 ^ 17`, followed by the
confirmation wait, and ends with the status
"✅ Registered <name> (age <age>, married: <married>)", which contains the name,
the decimal age and the text of the boolean. -/
theorem register_success (c : Contract) (env : Env)
    (nameField ageField marriedField : String) (age : Int)
    (hAge : parseInt ageField = some age) (hLo : 1 ≤ age) (hHi : age ≤ 150)
    (hName : jsLength nameField ≤ 32)
    (hFee : env.parseEther "0.5" = .ok (5 * 10 ^ 17))
    (hB : env.broadcast
      (.setUserInfo (some age) nameField (decide (marriedField = "true")) (5 * 10 ^ 17))
        = .ok ())
    (hC : env.confirm
      (.setUserInfo (some age) nameField (decide (marriedField = "true")) (5 * 10 ^ 17))
        = .ok ()) :
    (registerHandler (some c) env nameField ageField marriedField).calls
        = [.setUserInfo (some age) nameField (decide (marriedField = "true")) (5 * 10 ^ 17),
            .wait]
      ∧ (registerHandler (some c) env nameField ageField marriedField).calls.filter
            Call.isContractCall
          = [.setUserInfo (some age) nameField (decide (marriedField = "true")) (5 * 10 ^ 17)]
      ∧ (registerHandler (some c) env nameField ageField marriedField).outcome
          = .status ("✅ Registered " ++ nameField ++ " (age " ++ toString age ++ ", married: "
              ++ boolToStr (decide (marriedField = "true")) ++ ")")
      ∧ includes ("✅ Registered " ++ nameField ++ " (age " ++ toString age ++ ", married: "
              ++ boolToStr (decide (marriedField = "true")) ++ ")") nameField = true
      ∧ includes ("✅ Registered " ++ nameField ++ " (age " ++ toString age ++ ", married: "
              ++ boolToStr (decide (marriedField = "true")) ++ ")") (toString age) = true
      ∧ includes ("✅ Registered " ++ nameField ++ " (age " ++ toString age ++ ", married: "
              ++ boolToStr (decide (marriedField = "true")) ++ ")")
            (boolToStr (decide (marriedField = "true"))) = true := by
  have hA : ageRejected (some age) = false := by
    simp [ageRejected, ltOne, gtOneFifty]; omega
  have hN : nameRejected nameField = false := by
    simp [nameRejected]; omega
  have hRun : registerHandler (some c) env nameField ageField marriedField
      = ⟨[.setUserInfo (some age) nameField (decide (marriedField = "true")) (5 * 10 ^ 17),
            .wait],
          .status ("✅ Registered " ++ nameField ++ " (age " ++ toString age ++ ", married: "
              ++ boolToStr (decide (marriedField = "true")) ++ ")")⟩ := by
    simp only [registerHandler, hAge, hA, hN, hFee, hB, hC, numToStr]
    simp
  refine ⟨by rw [hRun], by rw [hRun]; simp [Call.isContractCall], by rw [hRun], ?_, ?_, ?_⟩
  · exact includes_of_eq _ "✅ Registered " nameField
      (" (age " ++ toString age ++ ", married: "
        ++ boolToStr (decide (marriedField = "true")) ++ ")")
      (by simp [String.append_assoc])
  · exact includes_of_eq _ ("✅ Registered " ++ nameField ++ " (age ") (toString age)
      (", married: " ++ boolToStr (decide (marriedField = "true")) ++ ")")
      (by simp [String.append_assoc])
  · exact includes_of_eq _
      ("✅ Registered " ++ nameField ++ " (age " ++ toString age ++ ", married: ")
      (boolToStr (decide (marriedField = "true"))) ")"
      (by simp [String.append_assoc])

/-- Witness for C5: name "Alice", age "30", married "true". -/
theorem register_success_witness :
    (registerHandler (some someContract) okEnv "Alice" "30" "true").calls.filter
          Call.isContractCall
        = [.setUserInfo (some 30) "Alice" true (5 * 10 ^ 17)]
      ∧ (registerHandler (some someContract) okEnv "Alice" "30" "true").outcome
        = .status "✅ Registered Alice (age 30, married: true)"
      ∧ includes "✅ Registered Alice (age 30, married: true)" "Alice" = true
      ∧ includes "✅ Registered Alice (age 30, married: true)" "30" = true
      ∧ includes "✅ Registered Alice (age 30, married: true)" "true" = true :=
  have t := register_success someContract okEnv "Alice" "30" "true" 30
    (by decide) (by decide) (by decide) (by decide) rfl rfl rfl
  ⟨t.2.1, t.2.2.1, t.2.2.2.1, t.2.2.2.2.1, t.2.2.2.2.2⟩

/-- C6, as stated, fails: a deposit of "1.5" whose broadcast is rejected with an
error whose message contains "User not registered" but which also carries a
reason ends with the reason in the status, and the status does not contain
"Register first". -/
theorem deposit_unregistered_counterexample :
    amountRejected "1.5" = false
      ∧ includes "execution reverted: User not registered" "User not registered" = true
      ∧ (depositHandler (some someContract) (broadcastFailEnv revertedUnregistered)
            "1.5").outcome
          = .status "❌ Deposit failed: execution reverted"
      ∧ includes "❌ Deposit failed: execution reverted" "Register first" = false := by
  decide

/-- C6, amended: for every deposit amount that passes validation and converts,
with a session present, and for every provider error raised at broadcast or at
confirmation that carries no (truthy) reason and whose message contains "User
not registered", the handler ends with the status
"❌ Deposit failed: Register first", which contains "Register first". -/
theorem deposit_unregistered_register_first (c : Contract) (env : Env) (amount : String)
    (value : Int) (code : Option Int) (reason : JsVal) (m : String)
    (hAmount : amountRejected amount = false)
    (hValue : env.parseEther amount = .ok value)
    (hErr : env.raises (.makeDeposit value) (.error code reason (.str m)))
    (hReason : reason.truthy = false)
    (hMsg : includes m "User not registered" = true) :
    (depositHandler (some c) env amount).outcome
        = .status "❌ Deposit failed: Register first"
      ∧ includes "❌ Deposit failed: Register first" "Register first" = true := by
  refine ⟨?_, by decide⟩
  rw [depositHandler_raises c env amount value _ hAmount hValue hErr]
  simp only [depositCatch, hReason, hMsg]
  rfl

/-- Witness for C6 (amended): amount "1.5", the error raised at broadcast. -/
theorem deposit_unregistered_register_first_witness :
    (depositHandler (some someContract) (broadcastFailEnv unregisteredNoReason)
          "1.5").outcome
        = .status "❌ Deposit failed: Register first"
      ∧ includes "❌ Deposit failed: Register first" "Register first" = true :=
  deposit_unregistered_register_first someContract (broadcastFailEnv unregisteredNoReason)
    "1.5" 1500000000000000000 none .undefined "execution reverted: User not registered"
    (by decide) rfl (Or.inl rfl) rfl (by decide)

/-- What holds of the failure status on the three paths: for every provider
error (raised at broadcast or confirmation of a validated submission) whose
`reason` is a non-empty string, the status is exactly "❌ <failure text>:
<reason>", whatever the message is; and for every error with no truthy reason
whose message is a string containing none of the substrings the path looks for
("insufficient funds" for registration, "User not registered" for deposit,
none for withdrawal, where any message value will do), the status is exactly
"❌ <failure text>". -/
theorem failure_status_reason_or_generic :
    (∀ (c : Contract) (env : Env) (nameField ageField marriedField : String) (value : Int)
        (code : Option Int) (r : String) (message : JsVal),
        ageRejected (parseInt ageField) = false → nameRejected nameField = false →
        env.parseEther "0.5" = .ok value →
        env.raises
          (.setUserInfo (parseInt ageField) nameField (decide (marriedField = "true")) value)
          (.error code (.str r) message) →
        r ≠ "" →
        (registerHandler (some c) env nameField ageField marriedField).outcome
          = .status ("❌ Registration failed: " ++ r))
      ∧ (∀ (c : Contract) (env : Env) (amount : String) (value : Int)
          (code : Option Int) (r : String) (message : JsVal),
          amountRejected amount = false → env.parseEther amount = .ok value →
          env.raises (.makeDeposit value) (.error code (.str r) message) →
          r ≠ "" →
          (depositHandler (some c) env amount).outcome
            = .status ("❌ Deposit failed: " ++ r))
      ∧ (∀ (c : Contract) (env : Env) (amount : String) (value : Int)
          (code : Option Int) (r : String) (message : JsVal),
          amountRejected amount = false → env.parseEther amount = .ok value →
          env.raises (.withdrawMyBalance value) (.error code (.str r) message) →
          r ≠ "" →
          (withdrawHandler (some c) env amount).outcome
            = .status ("❌ Withdrawal failed: " ++ r))
      ∧ (∀ (c : Contract) (env : Env) (nameField ageField marriedField : String) (value : Int)
          (code : Option Int) (reason : JsVal) (m : String),
          ageRejected (parseInt ageField) = false → nameRejected nameField = false →
          env.parseEther "0.5" = .ok value →
          env.raises
            (.setUserInfo (parseInt ageField) nameField (decide (marriedField = "true")) value)
            (.error code reason (.str m)) →
          reason.truthy = false → includes m "insufficient funds" = false →
          (registerHandler (some c) env nameField ageField marriedField).outcome
            = .status "❌ Registration failed")
      ∧ (∀ (c : Contract) (env : Env) (amount : String) (value : Int)
          (code : Option Int) (reason : JsVal) (m : String),
          amountRejected amount = false → env.parseEther amount = .ok value →
          env.raises (.makeDeposit value) (.error code reason (.str m)) →
          reason.truthy = false → includes m "User not registered" = false →
          (depositHandler (some c) env amount).outcome = .status "❌ Deposit failed")
      ∧ (∀ (c : Contract) (env : Env) (amount : String) (value : Int)
          (code : Option Int) (reason message : JsVal),
          amountRejected amount = false → env.parseEther amount = .ok value →
          env.raises (.withdrawMyBalance value) (.error code reason message) →
          reason.truthy = false →
          (withdrawHandler (some c) env amount).outcome = .status "❌ Withdrawal failed") := by
  refine ⟨?_, ?_, ?_, ?_, ?_, ?_⟩
  · intro c env nameField ageField marriedField value code r message hA hN hFee hErr hr
    rw [registerHandler_raises c env nameField ageField marriedField value _ hA hN hFee hErr]
    simp only [registerCatch, truthy_str r hr, if_true, JsVal.toStr,
      registration_failed_reason]
  · intro c env amount value code r message hA hV hErr hr
    rw [depositHandler_raises c env amount value _ hA hV hErr]
    simp only [depositCatch, truthy_str r hr, if_true, JsVal.toStr, deposit_failed_reason]
  · intro c env amount value code r message hA hV hErr hr
    rw [withdrawHandler_raises c env amount value _ hA hV hErr]
    simp only [withdrawCatch, truthy_str r hr, if_true, JsVal.toStr,
      withdrawal_failed_reason]
  · intro c env nameField ageField marriedField value code reason m hA hN hFee hErr hr hm
    rw [registerHandler_raises c env nameField ageField marriedField value _ hA hN hFee hErr]
    simp only [registerCatch, hr, hm]
    rfl
  · intro c env amount value code reason m hA hV hErr hr hm
    rw [depositHandler_raises c env amount value _ hA hV hErr]
    simp only [depositCatch, hr, hm]
    rfl
  · intro c env amount value code reason message hA hV hErr hr
    rw [withdrawHandler_raises c env amount value _ hA hV hErr]
    simp only [withdrawCatch, hr]
    rfl

/-- C7 (the code at the failing input): an error with no reason and no message
matches none of the substrings a path looks for, yet on the registration and
the deposit path the status "❌ <failure text>" is not written: reading
`err.message.includes` on `undefined` raises a `TypeError` that leaves the
handler.  On the withdrawal path the same error gives "❌ Withdrawal
failed". -/
theorem generic_failure_status_not_written :
    JsVal.truthy .undefined = false
      ∧ (registerHandler (some someContract)
            (confirmFailEnv (.error none .undefined .undefined)) "Alice" "30" "true").outcome
          ≠ .status "❌ Registration failed"
      ∧ (registerHandler (some someContract)
            (confirmFailEnv (.error none .undefined .undefined)) "Alice" "30" "true").outcome
          = .uncaught .typeError
      ∧ (depositHandler (some someContract)
            (broadcastFailEnv (.error none .undefined .undefined)) "1.5").outcome
          ≠ .status "❌ Deposit failed"
      ∧ (depositHandler (some someContract)
            (broadcastFailEnv (.error none .undefined .undefined)) "1.5").outcome
          = .uncaught .typeError
      ∧ (withdrawHandler (some someContract)
            (confirmFailEnv (.error none .undefined .undefined)) "2").outcome
          = .status "❌ Withdrawal failed" := by
  decide

/-- C8 (the code at the failing input): when the provider rejects a valid
registration or deposit with an error object that has neither a reason nor a
message, the `catch` block evaluates `err.message.includes(...)` on
`undefined`, a `TypeError` leaves the handler and no status is written.  The
withdrawal handler, which never reads `err.message`, reports
"❌ Withdrawal failed" for the same error. -/
theorem failure_classification_throws :
    (registerHandler (some someContract) (broadcastFailEnv bareError)
          "Alice" "30" "true").outcome = .uncaught .typeError
      ∧ (registerHandler (some someContract) (confirmFailEnv bareError)
          "Alice" "30" "true").outcome = .uncaught .typeError
      ∧ (depositHandler (some someContract) (broadcastFailEnv bareError) "1.5").outcome
          = .uncaught .typeError
      ∧ (depositHandler (some someContract) (confirmFailEnv bareError) "1.5").outcome
          = .uncaught .typeError
      ∧ (withdrawHandler (some someContract) (broadcastFailEnv bareError) "2").outcome
          = .status "❌ Withdrawal failed" := by
  decide

/-- C9: when a wallet provider is present and the network switch fails with the
error code 4902, `connectWallet` ends with the alert "Please add Monad Testnet
to MetaMask"; the only provider request made is the network switch (no
`eth_requestAccounts`), the `contract` binding is left as it was, and nothing
is thrown. -/
theorem connect_unrecognized_chain (contract : Option Contract) (w : WalletEnv)
    (reason message : JsVal)
    (h : w.switchChain = .error (.error (some 4902) reason message)) :
    (connectWallet contract (some w)).outcome = .alert "Please add Monad Testnet to MetaMask"
      ∧ (connectWallet contract (some w)).calls = [.switchEthereumChain monadTestnetChainId]
      ∧ Call.requestAccounts ∉ (connectWallet contract (some w)).calls
      ∧ (connectWallet contract (some w)).contract = contract
      ∧ (∀ e, (connectWallet contract (some w)).outcome ≠ .uncaught e) := by
  simp [connectWallet, h]

/-- Witness for C9: a wallet that answers the switch with code 4902, with an
earlier binding in place: the binding is kept and the switch is the only
request. -/
theorem connect_unrecognized_chain_witness :
    (connectWallet (some someContract)
          (some (switchFailWallet (.error (some 4902) .undefined (.str "Unrecognized chain ID")))
          )).contract = some someContract
      ∧ (connectWallet (some someContract)
          (some (switchFailWallet (.error (some 4902) .undefined (.str "Unrecognized chain ID")))
          )).calls = [.switchEthereumChain monadTestnetChainId]
      ∧ (connectWallet (some someContract)
          (some (switchFailWallet (.error (some 4902) .undefined (.str "Unrecognized chain ID")))
          )).outcome = .alert "Please add Monad Testnet to MetaMask" :=
  have t := connect_unrecognized_chain (some someContract)
    (switchFailWallet (.error (some 4902) .undefined (.str "Unrecognized chain ID")))
    .undefined (.str "Unrecognized chain ID") rfl
  ⟨t.2.2.2.1, t.2.1, t.1⟩

/-- C10, as stated, fails: the amount "1e3" passes the handler's check (it is a
number above 0), but the unit conversion rejects it, so with a provider that
succeeds at every call no call is made and the status is a failure. -/
theorem withdraw_success_counterexample :
    amountRejected "1e3" = false
      ∧ (withdrawHandler (some someContract) okEnv "1e3").calls = []
      ∧ (withdrawHandler (some someContract) okEnv "1e3").outcome
          = .status "❌ Withdrawal failed: invalid decimal value"
      ∧ (withdrawHandler (some someContract) okEnv "1e3").outcome
          ≠ .status "💸 Withdrawn 1e3 ETH (after 2% fee)" := by
  decide

/-- C10, amended: for every withdrawal amount that passes the handler's check and
that the unit conversion accepts, with a session present and a provider that
succeeds at broadcast and confirmation, the calls are the withdrawal entry
point with the converted amount and the confirmation wait, and the status is
exactly "💸 Withdrawn <amount> ETH (after 2% fee)": fixed text around the
amount string as entered.  The status states no other amount: its digits are
those of the entered amount followed by the single "2" of the fixed "2% fee". -/
theorem withdraw_success (c : Contract) (env : Env) (amount : String) (value : Int)
    (hAmount : amountRejected amount = false)
    (hValue : env.parseEther amount = .ok value)
    (hB : env.broadcast (.withdrawMyBalance value) = .ok ())
    (hC : env.confirm (.withdrawMyBalance value) = .ok ()) :
    (withdrawHandler (some c) env amount).outcome
        = .status ("💸 Withdrawn " ++ amount ++ " ETH (after 2% fee)")
      ∧ includes ("💸 Withdrawn " ++ amount ++ " ETH (after 2% fee)") amount = true
      ∧ (withdrawHandler (some c) env amount).calls = [.withdrawMyBalance value, .wait]
      ∧ ("💸 Withdrawn " ++ amount ++ " ETH (after 2% fee)").data.filter Char.isDigit
          = amount.data.filter Char.isDigit ++ ['2'] := by
  refine ⟨?_, includes_of_eq _ "💸 Withdrawn " amount " ETH (after 2% fee)" rfl, ?_, ?_⟩
  · simp [withdrawHandler, hAmount, hValue, hB, hC]
  · simp [withdrawHandler, hAmount, hValue, hB, hC]
  · have h1 : "💸 Withdrawn ".data.filter Char.isDigit = [] := by decide
    have h2 : " ETH (after 2% fee)".data.filter Char.isDigit = ['2'] := by decide
    rw [String.data_append, String.data_append, List.filter_append, List.filter_append,
      h1, h2, List.nil_append]

/-- Witness for C10 (amended): amount "2"; the status does not mention the
post-fee amount "1.96". -/
theorem withdraw_success_witness :
    (withdrawHandler (some someContract) okEnv "2").outcome
        = .status "💸 Withdrawn 2 ETH (after 2% fee)"
      ∧ includes "💸 Withdrawn 2 ETH (after 2% fee)" "2" = true
      ∧ "💸 Withdrawn 2 ETH (after 2% fee)".data.filter Char.isDigit = ['2', '2']
      ∧ includes "💸 Withdrawn 2 ETH (after 2% fee)" "1.96" = false :=
  have t := withdraw_success someContract okEnv "2" 2000000000000000000
    (by decide) rfl rfl rfl
  ⟨t.1, t.2.1, t.2.2.2, by decide⟩

end CliqueBank
